import Mathlib

/-!
Verification of the KM Master discrepancy-detection preprocessing core.

This file gives a shallow embedding of the three core routines of the
repository and proves (or refutes) the specification claims about them:

* `convert_to_op_code` (src/data_preprocessing.py, lines 14-109), called
  `reconcile_codes` in the specification: a two-phase merge that replaces
  operating-point names by canonical codes, with an `unmatched_policy`
  ("complete" / "partial") governing unresolved rows;
* `correct_scientific_notation` (src/data_preprocessing.py, lines 111-233),
  called `repair_store_codes` in the specification and named
  `repair_store_codes` here as well: a dictionary-based rewrite of store
  codes corrupted by spreadsheet scientific-format export, followed by a
  residual validation check;
* `filter_iqr` (src/utils.py, lines 111-158), called `iqr_bounds` in the
  specification: interquartile-range outlier filtering.

Tables are embedded as lists of rows; the spreadsheet lookup tables, which
the Python code loads through the network gateway at the start of each
call, are passed as explicit parameters.  Fallible code returns `Except`
or an `Option` error component; numeric work is over `ℚ`.
-/

/-! ### Generic list helpers -/

/-- Helper for `drop_duplicates`: keep every element not already seen,
threading the set of values seen so far. -/
def dedupAux {α : Type} [DecidableEq α] (seen : List α) : List α → List α
  | [] => []
  | x :: xs => if x ∈ seen then dedupAux seen xs else x :: dedupAux (x :: seen) xs

/-- `drop_duplicates` of the tabular library: keep the first occurrence of
every value, dropping later duplicates, preserving order. -/
def dedupKeepFirst {α : Type} [DecidableEq α] (l : List α) : List α :=
  dedupAux [] l

theorem mem_dedupAux {α : Type} [DecidableEq α] :
    ∀ (l seen : List α) (a : α), a ∈ dedupAux seen l ↔ a ∈ l ∧ a ∉ seen := by
  intro l
  induction l with
  | nil => simp [dedupAux]
  | cons x xs ih =>
    intro seen a
    simp only [dedupAux]
    by_cases hx : x ∈ seen
    · rw [if_pos hx, ih]
      constructor
      · rintro ⟨h1, h2⟩
        exact ⟨List.mem_cons_of_mem _ h1, h2⟩
      · rintro ⟨h1, h2⟩
        rcases List.mem_cons.mp h1 with h | h
        · exact absurd (h ▸ hx) h2
        · exact ⟨h, h2⟩
    · rw [if_neg hx]
      constructor
      · intro h
        rcases List.mem_cons.mp h with h | h
        · exact h ▸ ⟨List.mem_cons_self _ _, h ▸ hx⟩
        · have h2 := (ih _ _).mp h
          exact ⟨List.mem_cons_of_mem _ h2.1, fun hs => h2.2 (List.mem_cons_of_mem _ hs)⟩
      · rintro ⟨h1, h2⟩
        rcases List.mem_cons.mp h1 with h | h
        · exact h ▸ List.mem_cons_self _ _
        · by_cases hax : a = x
          · exact hax ▸ List.mem_cons_self _ _
          · refine List.mem_cons_of_mem _ ((ih _ _).mpr ⟨h, ?_⟩)
            intro hs
            rcases List.mem_cons.mp hs with h3 | h3
            · exact hax h3
            · exact h2 h3

theorem mem_dedupKeepFirst {α : Type} [DecidableEq α] (l : List α) (a : α) :
    a ∈ dedupKeepFirst l ↔ a ∈ l := by
  simp [dedupKeepFirst, mem_dedupAux]

/-! ### Outlier Bounds (`filter_iqr`, src/utils.py lines 111-158) -/

/-- Insert a rational into an ascending-sorted list. -/
def insertAsc (x : ℚ) : List ℚ → List ℚ
  | [] => [x]
  | y :: ys => if x ≤ y then x :: y :: ys else y :: insertAsc x ys

/-- Ascending insertion sort, the order used by the percentile computation. -/
def sortAsc : List ℚ → List ℚ
  | [] => []
  | x :: xs => insertAsc x (sortAsc xs)

/-- `Series.quantile(q)` with the default linear interpolation between order
statistics: with sorted values `s` of length `n`, position `h = q * (n - 1)`,
`i = ⌊h⌋`, the result is `s i + (h - i) * (s (i+1) - s i)`. -/
def quantileLinear (xs : List ℚ) (q : ℚ) : ℚ :=
  let s := sortAsc xs
  let n := s.length
  if n = 0 then 0
  else
    let h : ℚ := q * ((n : ℚ) - 1)
    let i : ℕ := ⌊h⌋.toNat
    let lo := s.getD i 0
    let hi := s.getD (i + 1) lo
    lo + (h - (i : ℚ)) * (hi - lo)

/-- Result of `filter_iqr`: the Python function returns the tuple
`(df_filtered, Q1, Q3, IQR, lower_bound, upper_bound)`. -/
structure IqrResult where
  filtered : List ℚ
  q1 : ℚ
  q3 : ℚ
  iqr : ℚ
  lower_bound : ℚ
  upper_bound : ℚ
deriving DecidableEq, Repr

/-- `filter_iqr` (src/utils.py lines 111-158), `iqr_bounds` in the spec.
The table is represented by the list of values of the filtered column. -/
def filter_iqr (xs : List ℚ) (lower_constant upper_constant : ℚ) : IqrResult :=
  let q1 := quantileLinear xs (1 / 4)
  let q3 := quantileLinear xs (3 / 4)
  let iqr := q3 - q1
  let lower_bound := q1 - lower_constant * iqr
  let upper_bound := q3 + upper_constant * iqr
  { filtered := xs.filter (fun v => decide (lower_bound ≤ v) && decide (v ≤ upper_bound))
    q1 := q1
    q3 := q3
    iqr := iqr
    lower_bound := lower_bound
    upper_bound := upper_bound }

/-- C4: `iqr_bounds` (`filter_iqr`) returns Q1/Q3 as the 25th/75th linear
interpolation percentiles, bounds `Q1 - lower_k * IQR` and
`Q3 + upper_k * IQR` with `IQR = Q3 - Q1`, and the filtered table keeps
exactly the rows with `lower_bound ≤ value ≤ upper_bound` inclusive; on
`[1,2,3,4,5,100]` with both constants `1.5` it yields Q1 = 2.25, Q3 = 4.75,
IQR = 2.5, lower_bound = -1.5, upper_bound = 8.5, and the row with value
100 is excluded. -/
theorem c4_filter_iqr_bounds :
    (∀ (xs : List ℚ) (lk uk v : ℚ),
        v ∈ (filter_iqr xs lk uk).filtered ↔
          v ∈ xs ∧ (filter_iqr xs lk uk).lower_bound ≤ v ∧
            v ≤ (filter_iqr xs lk uk).upper_bound)
    ∧ (∀ (xs : List ℚ) (lk uk : ℚ),
        (filter_iqr xs lk uk).q1 = quantileLinear xs (1 / 4) ∧
        (filter_iqr xs lk uk).q3 = quantileLinear xs (3 / 4) ∧
        (filter_iqr xs lk uk).iqr = (filter_iqr xs lk uk).q3 - (filter_iqr xs lk uk).q1 ∧
        (filter_iqr xs lk uk).lower_bound =
          (filter_iqr xs lk uk).q1 - lk * (filter_iqr xs lk uk).iqr ∧
        (filter_iqr xs lk uk).upper_bound =
          (filter_iqr xs lk uk).q3 + uk * (filter_iqr xs lk uk).iqr)
    ∧ filter_iqr [1, 2, 3, 4, 5, 100] (3 / 2) (3 / 2) =
        { filtered := [1, 2, 3, 4, 5]
          q1 := 9 / 4
          q3 := 19 / 4
          iqr := 5 / 2
          lower_bound := -(3 / 2)
          upper_bound := 17 / 2 } := by
  refine ⟨?_, ?_, ?_⟩
  · intro xs lk uk v
    simp [filter_iqr, List.mem_filter, and_assoc]
  · intro xs lk uk
    exact ⟨rfl, rfl, rfl, rfl, rfl⟩
  · have hs : sortAsc [1, 2, 3, 4, 5, 100] = [1, 2, 3, 4, 5, 100] := by
      norm_num [sortAsc, insertAsc]
    have hq1 : quantileLinear [1, 2, 3, 4, 5, 100] (1 / 4) = 9 / 4 := by
      simp only [quantileLinear, hs]
      norm_num [List.getD]
    have hq3 : quantileLinear [1, 2, 3, 4, 5, 100] (3 / 4) = 19 / 4 := by
      simp only [quantileLinear, hs]
      norm_num [List.getD, show Int.toNat 3 = 3 from rfl]
    simp only [filter_iqr, hq1, hq3]
    norm_num [List.filter_cons, List.filter_nil]

/-! ### Code Reconciliation (`convert_to_op_code`, src/data_preprocessing.py lines 14-109)

The input table `df` is embedded as a list of rows; each row carries the
value of the operating-point name column (`left_on`, default "OP") and a
`payload` standing for all remaining columns of the row.  The lookup table
`df_master_op` (loaded from the spreadsheet and projected to its two
columns at lines 58-61) is a list of (name, code) pairs. -/

/-- A row of the operational table: the `left_on` column plus the rest of
the row's columns, abstracted as a payload. -/
structure OpRow where
  name : String
  payload : Nat
deriving DecidableEq, Repr

/-- A row of the master lookup: `right_on_0` (OP name) and `right_on_1`
(OP code). -/
structure MasterOpRow where
  opName : String
  opCode : String
deriving DecidableEq, Repr

/-- A row after a left merge: payload, the retained `left_on` value, and
the `right_on_1` code column (`none` embeds the NaN a left join leaves on
unmatched rows). -/
structure MergedRow where
  payload : Nat
  name : String
  code : Option String
deriving DecidableEq, Repr

/-- A row of the final reconciled table, after `right_on_0` and `left_on`
are dropped and `right_on_1` is renamed onto `left_on` (line 76-80): the
payload and the resolved code column. -/
structure OutRow where
  payload : Nat
  code : Option String
deriving DecidableEq, Repr

/-- Phase 1 (line 66): `pd.merge(df, df_master_op, left_on=left_on,
right_on=right_on_0, how='left')` — one output row per (row, matching
master row) pair, and a single code-less row when nothing matches. -/
def mergePhase1 (df : List OpRow) (master : List MasterOpRow) : List MergedRow :=
  df.flatMap (fun r =>
    let ms := master.filter (fun m => m.opName == r.name)
    if ms.isEmpty then [⟨r.payload, r.name, none⟩]
    else ms.map (fun m => ⟨r.payload, r.name, some m.opCode⟩))

/-- Phase 2 fallback for one set-aside row (lines 72-75): re-merge on
`left_on = right_on_1`, i.e. against the master code column. -/
def mergePhase2 (u : MergedRow) (master : List MasterOpRow) : List MergedRow :=
  let ms := master.filter (fun m => m.opCode == u.name)
  if ms.isEmpty then [⟨u.payload, u.name, none⟩]
  else ms.map (fun m => ⟨u.payload, u.name, some m.opCode⟩)

/-- Lines 66-80: both join phases, concat, column drop/rename,
`drop_duplicates` and `reset_index` — the reconciled table prior to the
`unmatched_policy` dispatch. -/
def mergedTable (df : List OpRow) (master : List MasterOpRow) : List OutRow :=
  let p1 := mergePhase1 df master
  let matched := p1.filter (fun r => r.code.isSome)
  let unmatched := p1.filter (fun r => r.code.isNone)
  let combined :=
    if unmatched.isEmpty then p1
    else matched ++ unmatched.flatMap (fun u => mergePhase2 u master)
  dedupKeepFirst (combined.map (fun r => OutRow.mk r.payload r.code))

/-- The exceptions `convert_to_op_code` can raise: the `ValueError` of the
"complete" branch carrying the `unique()` of the (renamed) code column
over the unresolved rows (lines 91-95), the `ValueError` for an invalid
`method` (line 109), and the `ZeroDivisionError` raised by the percentage
computation of the "partial" branch's log line (line 104) when the
reconciled table is empty. -/
inductive CtocError where
  | unmappedOps (ops : List (Option String))
  | invalidMethod
  | zeroDivision
deriving DecidableEq, Repr

/-- Observable phases of one `convert_to_op_code` call, in source order:
the lookup-sheet load (lines 58-63), the phase-1 join (line 66), the
phase-2 fallback join (lines 72-75, only when unmatched rows exist), and
the concat/drop/rename/dedup transformation (lines 76-80). -/
inductive CtocStep where
  | loadMaster
  | join1
  | join2
  | transform
deriving DecidableEq, Repr

/-- `convert_to_op_code` (src/data_preprocessing.py lines 14-109),
`reconcile_codes` in the spec, instrumented with the list of phases the
call performs before it returns or raises.  The `method` dispatch sits at
lines 83-109, after the load, the joins and the transformation. -/
def ctocTrace (df : List OpRow) (master : List MasterOpRow) (method : String) :
    List CtocStep × Except CtocError (List OutRow) :=
  let p1 := mergePhase1 df master
  let unmatched := p1.filter (fun r => r.code.isNone)
  let steps := [CtocStep.loadMaster, CtocStep.join1]
      ++ (if unmatched.isEmpty then [] else [CtocStep.join2]) ++ [CtocStep.transform]
  let merged := mergedTable df master
  let result : Except CtocError (List OutRow) :=
    if method == "complete" then
      let dfNa := merged.filter (fun r => r.code.isNone)
      if dfNa.isEmpty then Except.ok merged
      else Except.error (CtocError.unmappedOps (dedupKeepFirst (dfNa.map OutRow.code)))
    else if method == "partial" then
      let rowsBefore := merged.length
      if rowsBefore = 0 then Except.error CtocError.zeroDivision
      else Except.ok (merged.filter (fun r => r.code.isSome))
    else Except.error CtocError.invalidMethod
  (steps, result)

/-- `convert_to_op_code` without the instrumentation: just its outcome. -/
def convert_to_op_code (df : List OpRow) (master : List MasterOpRow)
    (method : String) : Except CtocError (List OutRow) :=
  (ctocTrace df master method).2

/-- C1 (code bug): under `unmatched_policy="complete"` with unresolved rows,
line 91 computes `unmapped_ops = df_na[left_on].unique()` on the renamed
code column — but every entry of that column over `df_na` is the join's
null marker (the original name column was dropped at line 76), so the
raised error always reports the one-element list `[null]` instead of the
distinct unresolved names: here the two unresolved names "Point X" and
"Point Y" are reported as `[none]`. -/
theorem c1_complete_error_reports_null_not_names :
    convert_to_op_code [⟨"Point X", 0⟩, ⟨"Point Y", 1⟩] [⟨"Other", "OC"⟩] "complete"
      = Except.error (CtocError.unmappedOps [none]) := by rfl

/-- C5 (code bug): under `unmatched_policy="partial"` the log line 104
computes `rows_dropped/rows_before*100`; on an empty input table the
reconciled table is empty, `rows_before = 0`, and the call raises
`ZeroDivisionError` instead of never failing. -/
theorem c5_partial_empty_table_division_error :
    convert_to_op_code ([] : List OpRow) [⟨"Other", "OC"⟩] "partial"
      = Except.error CtocError.zeroDivision := by rfl

/-- C7 counterexample: with an invalid policy string, the call does fail
with the invalid-argument error, but only at the end: the lookup-table
load, the phase-1 join and the concat/drop/rename/dedup transformation
have all been performed before the `method` dispatch at lines 83-109
raises — refuting "fails immediately and nothing is attempted". -/
theorem c7_invalid_policy_counterexample :
    ctocTrace [⟨"Point Balikpapan Reguler", 0⟩]
        [⟨"Point Balikpapan Reguler", "PBPNR"⟩] "bogus"
      = ([CtocStep.loadMaster, CtocStep.join1, CtocStep.transform],
          Except.error CtocError.invalidMethod) := by rfl

/-- C7 amended: for every policy string other than "complete" and
"partial", `reconcile_codes` fails with the invalid-argument error, but
only after the lookup-table load, the join phase(s) and the table
transformation have been performed; the policy is validated at the final
dispatch, not up front. -/
theorem c7_invalid_policy_error_after_pipeline :
    ∀ (df : List OpRow) (master : List MasterOpRow) (method : String),
      method ≠ "complete" → method ≠ "partial" →
      (ctocTrace df master method).2 = Except.error CtocError.invalidMethod ∧
      CtocStep.loadMaster ∈ (ctocTrace df master method).1 ∧
      CtocStep.join1 ∈ (ctocTrace df master method).1 ∧
      CtocStep.transform ∈ (ctocTrace df master method).1 := by
  intro df master method h1 h2
  have hb1 : (method == "complete") = false := beq_eq_false_iff_ne.mpr h1
  have hb2 : (method == "partial") = false := beq_eq_false_iff_ne.mpr h2
  refine ⟨?_, ?_, ?_, ?_⟩ <;> simp [ctocTrace, hb1, hb2]

theorem c7_invalid_policy_error_after_pipeline_witness :
    (ctocTrace [⟨"Point Balikpapan Reguler", 0⟩] [⟨"Other", "OC"⟩] "partiall").2
        = Except.error CtocError.invalidMethod ∧
      CtocStep.loadMaster
          ∈ (ctocTrace [⟨"Point Balikpapan Reguler", 0⟩] [⟨"Other", "OC"⟩] "partiall").1 ∧
      CtocStep.join1
          ∈ (ctocTrace [⟨"Point Balikpapan Reguler", 0⟩] [⟨"Other", "OC"⟩] "partiall").1 ∧
      CtocStep.transform
          ∈ (ctocTrace [⟨"Point Balikpapan Reguler", 0⟩] [⟨"Other", "OC"⟩] "partiall").1 :=
  c7_invalid_policy_error_after_pipeline _ _ _ (by decide) (by decide)

/-- C8 counterexample: a row whose name-column value "A" is a canonical
code in the lookup's code column (second master row) but also matches a
lookup *name* entry (first master row): phase 1 resolves it to that
name's code "B", so the value does not stay unchanged and the phase-2
fallback is never reached. -/
theorem c8_name_equal_to_code_counterexample :
    convert_to_op_code [⟨"A", 0⟩] [⟨"A", "B"⟩, ⟨"C", "A"⟩] "complete"
        = Except.ok [⟨0, some "B"⟩] ∧
      OutRow.mk 0 (some "A") ∉ [OutRow.mk 0 (some "B")] := by
  exact ⟨by rfl, by decide⟩

/-- C8 amended: for every input row whose name-column value matches no
entry of the lookup's name column and equals a canonical code present in
the lookup's code column, the phase-2 fallback join resolves the code to
itself, and any successful `reconcile_codes` output contains that row with
its value unchanged. -/
theorem c8_code_valued_rows_fixed_by_fallback :
    ∀ (df : List OpRow) (master : List MasterOpRow) (r : OpRow)
      (method : String) (out : List OutRow),
      r ∈ df →
      (∀ m ∈ master, m.opName ≠ r.name) →
      (∃ m ∈ master, m.opCode = r.name) →
      convert_to_op_code df master method = Except.ok out →
      OutRow.mk r.payload (some r.name) ∈ out := by
  intro df master r method out hr hname hcode hok
  obtain ⟨m, hm, hmc⟩ := hcode
  have hfilter : master.filter (fun m2 => m2.opName == r.name) = [] := by
    refine List.filter_eq_nil_iff.mpr ?_
    intro a ha
    simp [hname a ha]
  have hu : MergedRow.mk r.payload r.name none ∈ mergePhase1 df master := by
    unfold mergePhase1
    refine List.mem_flatMap.mpr ⟨r, hr, ?_⟩
    simp [hfilter]
  have humem : MergedRow.mk r.payload r.name none
      ∈ (mergePhase1 df master).filter (fun r2 => r2.code.isNone) :=
    List.mem_filter.mpr ⟨hu, rfl⟩
  have hne : ((mergePhase1 df master).filter (fun r2 => r2.code.isNone)).isEmpty = false := by
    have h0 := List.ne_nil_of_mem humem
    simp [List.isEmpty_iff, h0]
  have hm2 : m ∈ master.filter (fun m2 => m2.opCode == r.name) :=
    List.mem_filter.mpr ⟨hm, by simp [hmc]⟩
  have hne2 : (master.filter (fun m2 => m2.opCode == r.name)).isEmpty = false := by
    have h0 := List.ne_nil_of_mem hm2
    simp [List.isEmpty_iff, h0]
  have ht : MergedRow.mk r.payload r.name (some r.name)
      ∈ mergePhase2 (MergedRow.mk r.payload r.name none) master := by
    unfold mergePhase2
    simp only [hne2, Bool.false_eq_true, if_false]
    exact List.mem_map.mpr ⟨m, hm2, by simp [hmc]⟩
  have hout : OutRow.mk r.payload (some r.name) ∈ mergedTable df master := by
    unfold mergedTable
    rw [mem_dedupKeepFirst]
    refine List.mem_map.mpr ⟨MergedRow.mk r.payload r.name (some r.name), ?_, rfl⟩
    simp only [hne, Bool.false_eq_true, if_false]
    exact List.mem_append_right _ (List.mem_flatMap.mpr ⟨_, humem, ht⟩)
  unfold convert_to_op_code ctocTrace at hok
  by_cases hc : method == "complete"
  · simp only [hc, if_true] at hok
    by_cases hna : ((mergedTable df master).filter (fun r2 => r2.code.isNone)).isEmpty
    · simp only [hna, if_true, Except.ok.injEq] at hok
      exact hok ▸ hout
    · simp only [hna, Bool.false_eq_true, if_false] at hok
      exact absurd hok (by simp)
  · simp only [hc, Bool.false_eq_true, if_false] at hok
    by_cases hp : method == "partial"
    · simp only [hp, if_true] at hok
      by_cases hz : (mergedTable df master).length = 0
      · simp only [hz, if_true] at hok
        exact absurd hok (by simp)
      · simp only [hz, if_false, Except.ok.injEq] at hok
        refine hok ▸ List.mem_filter.mpr ⟨hout, rfl⟩
    · simp only [hp, Bool.false_eq_true, if_false] at hok
      exact absurd hok (by simp)

theorem c8_code_valued_rows_fixed_by_fallback_witness :
    OutRow.mk 7 (some "PBPNR") ∈ [OutRow.mk 7 (some "PBPNR")] :=
  c8_code_valued_rows_fixed_by_fallback
    [⟨"PBPNR", 7⟩] [⟨"Point Balikpapan Reguler", "PBPNR"⟩] ⟨"PBPNR", 7⟩ "complete"
    [OutRow.mk 7 (some "PBPNR")]
    (by decide) (by decide) ⟨⟨"Point Balikpapan Reguler", "PBPNR"⟩, by decide, by decide⟩
    (by rfl)

/-! ### Notation Repair (`correct_scientific_notation`, src/data_preprocessing.py lines 111-233)

The function is named `repair_store_codes` here, as in the specification.
Rows carry the values of the four designated columns (`df_column_0` ..
`df_column_3`); each table also records the dtype of those four columns,
since the function's precondition tests column dtypes (`== 'object'`), not
individual values.  The master lookup, loaded from the spreadsheet at
lines 168-174, is a parameter.  The result's first component is the
caller-visible state of `df` when the call returns or raises: the Python
function assigns the rewritten column into the caller's frame in place
(lines 198, 208) before the residual post-check runs. -/

/-- A column dtype as the check at lines 163-165/179-181 sees it. -/
inductive Dtype where
  | object
  | int64
  | float64
deriving DecidableEq, Repr

/-- One row of the operational table: the values of `df_column_0` (OP
code), `df_column_1` (KM Master), `df_column_2` (Toko Saintifik) and
`df_column_3` (Toko Benar). -/
structure CsnRow where
  opCode : String
  kmMaster : String
  tokoSaintifik : String
  tokoBenar : String
deriving DecidableEq, Repr

/-- The operational table: dtypes of the four designated columns plus the
rows. -/
structure CsnTable where
  dtype0 : Dtype
  dtype1 : Dtype
  dtype2 : Dtype
  dtype3 : Dtype
  rows : List CsnRow
deriving DecidableEq, Repr

/-- One row of the master store lookup (`master_column_0` ..
`master_column_3`). -/
structure CsnMasterRow where
  mOpCode : String
  mKmMaster : String
  mTokoSaintifik : String
  mTokoBenar : String
deriving DecidableEq, Repr

/-- The master store lookup with its four column dtypes. -/
structure CsnMaster where
  mdtype0 : Dtype
  mdtype1 : Dtype
  mdtype2 : Dtype
  mdtype3 : Dtype
  rows : List CsnMasterRow
deriving DecidableEq, Repr

/-- `str.contains` for a single character (the regexes at lines 184-185,
214 and 217 test for one literal character). -/
def hasChar (s : String) (c : Char) : Bool :=
  s.data.contains c

/-- Python `str.replace(a, b)` for one-character patterns: substitute
every occurrence. -/
def replaceChar (s : String) (a b : Char) : String :=
  ⟨s.data.map (fun c => if c = a then b else c)⟩

/-- Key of a master row in the comma-variant correction dictionary
(line 195): periods of the lookup's scientific column replaced by commas. -/
def commaKeyOf (m : CsnMasterRow) : String × String × String :=
  (m.mOpCode, m.mKmMaster, replaceChar m.mTokoSaintifik '.' ',')

/-- Key of a master row in the period-variant correction dictionary
(line 205): commas of the lookup's scientific column replaced by periods. -/
def periodKeyOf (m : CsnMasterRow) : String × String × String :=
  (m.mOpCode, m.mKmMaster, replaceChar m.mTokoSaintifik ',' '.')

/-- Composite key of a table row used by the `mapping.get` lookup
(lines 199, 209): (op-code, secondary id, raw token column). -/
def rowKey (r : CsnRow) : String × String × String :=
  (r.opCode, r.kmMaster, r.tokoSaintifik)

/-- Lookup in the dict comprehension built over `df_master.iterrows()`:
with duplicate keys the last row wins, hence `find?` over the reversed
list. -/
def mapLookup (keyOf : CsnMasterRow → String × String × String)
    (ms : List CsnMasterRow) (k : String × String × String) : Option String :=
  (ms.reverse.find? (fun m => keyOf m == k)).map CsnMasterRow.mTokoBenar

/-- The `df.apply` of lines 198-201 / 208-211: rewrite every row's
`df_column_3` value through the correction dictionary, keeping the value
when the composite key has no entry. -/
def applyMapping (keyOf : CsnMasterRow → String × String × String)
    (ms : List CsnMasterRow) (rows : List CsnRow) : List CsnRow :=
  rows.map (fun r =>
    { r with tokoBenar := (mapLookup keyOf ms (rowKey r)).getD r.tokoBenar })

/-- `rows_comma` (line 186): number of rows whose target column contains a
comma. -/
def rowsComma (rows : List CsnRow) : Nat :=
  (rows.filter (fun r => hasChar r.tokoBenar ',')).length

/-- `rows_period` (line 187): number of rows whose target column contains
a period. -/
def rowsPeriod (rows : List CsnRow) : Nat :=
  (rows.filter (fun r => hasChar r.tokoBenar '.')).length

/-- Lines 193-211: the single correction pass — comma variant when any
target value contains a comma, else period variant when any contains a
period, else no rewrite. -/
def correctedRows (rows : List CsnRow) (ms : List CsnMasterRow) : List CsnRow :=
  if 0 < rowsComma rows then applyMapping commaKeyOf ms rows
  else if 0 < rowsPeriod rows then applyMapping periodKeyOf ms rows
  else rows

/-- `not_scientific_list` (line 214): canonical lookup values that still
contain a period, excluded from the residual check. -/
def notScientificList (ms : List CsnMasterRow) : List String :=
  (ms.filter (fun m => hasChar m.mTokoBenar '.')).map CsnMasterRow.mTokoBenar

/-- Lines 217-218: rows whose corrected value still contains a comma or a
period and is not among the excluded canonical values. -/
def residualRows (rows : List CsnRow) (ms : List CsnMasterRow) : List CsnRow :=
  rows.filter (fun r =>
    (hasChar r.tokoBenar ',' || hasChar r.tokoBenar '.')
      && !((notScientificList ms).contains r.tokoBenar))

/-- The exceptions `correct_scientific_notation` can raise: the
`TypeError` of lines 163-165 (a `df` column) and 179-181 (a master
column), each naming the offending column and its dtype, and the
`ValueError` of lines 226-228 carrying the residual count and the sample
of up to 5 offending values. -/
inductive CsnError where
  | typeError (column : String) (dtype : Dtype)
  | masterTypeError (column : String) (dtype : Dtype)
  | residual (count : Nat) (sample : List String)
deriving DecidableEq, Repr

/-- Default binding of `df_column_0` (config.CSN_DF_OP_CODE). -/
def CSN_DF_OP_CODE : String := "OP"

/-- Default binding of `df_column_1` (config.CSN_DF_KM_MASTER). -/
def CSN_DF_KM_MASTER : String := "KM Master"

/-- Default binding of `df_column_2` (config.CSN_DF_TOKO_SAINTIFIK). -/
def CSN_DF_TOKO_SAINTIFIK : String := "Toko"

/-- Default binding of `df_column_3` (config.CSN_DF_TOKO_BENAR, aliased to
CSN_DF_TOKO_SAINTIFIK in config.py). -/
def CSN_DF_TOKO_BENAR : String := CSN_DF_TOKO_SAINTIFIK

/-- Default binding of `master_column_0` (config.CSN_MASTER_OP_CODE). -/
def CSN_MASTER_OP_CODE : String := "Kode OP"

/-- Default binding of `master_column_1` (config.CSN_MASTER_KM_MASTER). -/
def CSN_MASTER_KM_MASTER : String := "KM Master"

/-- Default binding of `master_column_2`
(config.CSN_MASTER_TOKO_SAINTIFIK). -/
def CSN_MASTER_TOKO_SAINTIFIK : String := "Toko Saintifik"

/-- Default binding of `master_column_3` (config.CSN_MASTER_TOKO_BENAR). -/
def CSN_MASTER_TOKO_BENAR : String := "Toko Benar"

/-- `correct_scientific_notation` (src/data_preprocessing.py lines
111-233), `repair_store_codes` in the spec.  First component of the
result: the caller-visible state of `df` at the moment the call returns
or raises (the correction pass mutates the caller's frame in place before
the post-check).  Second component: the raised exception, if any. -/
def repair_store_codes (df : CsnTable) (master : CsnMaster) :
    CsnTable × Option CsnError :=
  if df.dtype0 ≠ Dtype.object then (df, some (CsnError.typeError CSN_DF_OP_CODE df.dtype0))
  else if df.dtype1 ≠ Dtype.object then (df, some (CsnError.typeError CSN_DF_KM_MASTER df.dtype1))
  else if df.dtype2 ≠ Dtype.object then (df, some (CsnError.typeError CSN_DF_TOKO_SAINTIFIK df.dtype2))
  else if df.dtype3 ≠ Dtype.object then (df, some (CsnError.typeError CSN_DF_TOKO_BENAR df.dtype3))
  else if master.mdtype0 ≠ Dtype.object then (df, some (CsnError.masterTypeError CSN_MASTER_OP_CODE master.mdtype0))
  else if master.mdtype1 ≠ Dtype.object then (df, some (CsnError.masterTypeError CSN_MASTER_KM_MASTER master.mdtype1))
  else if master.mdtype2 ≠ Dtype.object then (df, some (CsnError.masterTypeError CSN_MASTER_TOKO_SAINTIFIK master.mdtype2))
  else if master.mdtype3 ≠ Dtype.object then (df, some (CsnError.masterTypeError CSN_MASTER_TOKO_BENAR master.mdtype3))
  else
    let rows2 := correctedRows df.rows master.rows
    let df2 : CsnTable := { df with rows := rows2 }
    let res := residualRows rows2 master.rows
    if 0 < res.length then
      (df2, some (CsnError.residual res.length ((res.map CsnRow.tokoBenar).take 5)))
    else (df2, none)

/-- All eight designated columns hold the textual dtype (the precondition
of the claim set). -/
def dtypesOk (df : CsnTable) (master : CsnMaster) : Prop :=
  df.dtype0 = Dtype.object ∧ df.dtype1 = Dtype.object ∧
  df.dtype2 = Dtype.object ∧ df.dtype3 = Dtype.object ∧
  master.mdtype0 = Dtype.object ∧ master.mdtype1 = Dtype.object ∧
  master.mdtype2 = Dtype.object ∧ master.mdtype3 = Dtype.object

/-- Under the textual-dtype precondition, the call reduces to the
correction pass followed by the residual check. -/
theorem repair_store_codes_of_dtypesOk (df : CsnTable) (master : CsnMaster)
    (h : dtypesOk df master) :
    repair_store_codes df master =
      ({ df with rows := correctedRows df.rows master.rows },
        if 0 < (residualRows (correctedRows df.rows master.rows) master.rows).length
        then some (CsnError.residual
            (residualRows (correctedRows df.rows master.rows) master.rows).length
            (((residualRows (correctedRows df.rows master.rows) master.rows).map
                CsnRow.tokoBenar).take 5))
        else none) := by
  obtain ⟨h0, h1, h2, h3, h4, h5, h6, h7⟩ := h
  rw [repair_store_codes]
  simp only [h0, h1, h2, h3, h4, h5, h6, h7, ne_eq, not_true_eq_false, if_false]
  split <;> rfl

theorem correctedRows_comma (rows : List CsnRow) (ms : List CsnMasterRow)
    (h : 0 < rowsComma rows) :
    correctedRows rows ms = applyMapping commaKeyOf ms rows := by
  unfold correctedRows
  rw [if_pos h]

theorem correctedRows_period (rows : List CsnRow) (ms : List CsnMasterRow)
    (h1 : rowsComma rows = 0) (h2 : 0 < rowsPeriod rows) :
    correctedRows rows ms = applyMapping periodKeyOf ms rows := by
  unfold correctedRows
  rw [if_neg (by omega), if_pos h2]

theorem correctedRows_id (rows : List CsnRow) (ms : List CsnMasterRow)
    (h1 : rowsComma rows = 0) (h2 : rowsPeriod rows = 0) :
    correctedRows rows ms = rows := by
  unfold correctedRows
  rw [if_neg (by omega), if_neg (by omega)]

/-- The table used by the spec's comma-variant example: one row whose
target value (and raw token) is the comma-corrupted "8,00E+34" under the
key ("A", "B"). -/
def csnCommaExampleDf : CsnTable :=
  ⟨Dtype.object, Dtype.object, Dtype.object, Dtype.object,
    [⟨"A", "B", "8,00E+34", "8,00E+34"⟩]⟩

/-- The lookup of the spec's example: ("A", "B", "8.00E+34") maps to the
canonical code "8E34". -/
def csnCommaExampleMaster : CsnMaster :=
  ⟨Dtype.object, Dtype.object, Dtype.object, Dtype.object,
    [⟨"A", "B", "8.00E+34", "8E34"⟩]⟩

/-- C2: exactly one delimiter variant's correction mapping is applied per
call — the comma variant whenever some target value contains a comma
(even if period rows also exist), else the period variant whenever some
value contains a period; rows whose composite key has no mapping entry
keep their value; and the spec's example row ("8,00E+34" under key
(A, B)) resolves to "8E34" through the comma-variant mapping built from
the lookup entry ("A", "B", "8.00E+34") → "8E34". -/
theorem c2_single_variant_mapping :
    (∀ (df : CsnTable) (master : CsnMaster), dtypesOk df master →
        0 < rowsComma df.rows →
        (repair_store_codes df master).1.rows
          = applyMapping commaKeyOf master.rows df.rows)
    ∧ (∀ (df : CsnTable) (master : CsnMaster), dtypesOk df master →
        rowsComma df.rows = 0 → 0 < rowsPeriod df.rows →
        (repair_store_codes df master).1.rows
          = applyMapping periodKeyOf master.rows df.rows)
    ∧ (∀ (keyOf : CsnMasterRow → String × String × String)
        (ms : List CsnMasterRow) (rows : List CsnRow) (i : ℕ) (r : CsnRow),
        rows[i]? = some r → mapLookup keyOf ms (rowKey r) = none →
        (applyMapping keyOf ms rows)[i]? = some r)
    ∧ repair_store_codes csnCommaExampleDf csnCommaExampleMaster
        = ({ csnCommaExampleDf with rows := [⟨"A", "B", "8,00E+34", "8E34"⟩] },
            none) := by
  refine ⟨?_, ?_, ?_, ?_⟩
  · intro df master h hc
    rw [repair_store_codes_of_dtypesOk df master h]
    exact correctedRows_comma df.rows master.rows hc
  · intro df master h hc hp
    rw [repair_store_codes_of_dtypesOk df master h]
    exact correctedRows_period df.rows master.rows hc hp
  · intro keyOf ms rows i r hi hnone
    simp only [applyMapping, List.getElem?_map, hi, Option.map_some', hnone,
      Option.getD_none, Option.some.injEq]
  · rfl

theorem c2_single_variant_mapping_witness :
    (repair_store_codes csnCommaExampleDf csnCommaExampleMaster).1.rows
      = applyMapping commaKeyOf csnCommaExampleMaster.rows csnCommaExampleDf.rows :=
  c2_single_variant_mapping.1 csnCommaExampleDf csnCommaExampleMaster
    ⟨rfl, rfl, rfl, rfl, rfl, rfl, rfl, rfl⟩ (by decide)

theorem residualRows_ne_nil_iff (rows : List CsnRow) (ms : List CsnMasterRow) :
    residualRows rows ms ≠ [] ↔
      ∃ r ∈ rows,
        (hasChar r.tokoBenar ',' = true ∨ hasChar r.tokoBenar '.' = true) ∧
          r.tokoBenar ∉ notScientificList ms := by
  unfold residualRows
  constructor
  · intro hne
    obtain ⟨r, hr⟩ := List.exists_mem_of_ne_nil _ hne
    obtain ⟨hmem, hp⟩ := List.mem_filter.mp hr
    refine ⟨r, hmem, ?_⟩
    simpa [List.contains, List.elem_iff] using hp
  · rintro ⟨r, hmem, hp1, hp2⟩
    refine List.ne_nil_of_mem (a := r) (List.mem_filter.mpr ⟨hmem, ?_⟩)
    simp [List.contains, List.elem_iff, hp1, hp2]

/-- C3: under the dtype precondition, `repair_store_codes` raises if and
only if some corrected row's value still contains a comma or a period and
is not among the period-containing canonical lookup values; a raised
error is the validation error carrying the residual count and the sample
of (up to) the first 5 offending values; otherwise the corrected table is
returned. -/
theorem c3_residual_validation :
    ∀ (df : CsnTable) (master : CsnMaster), dtypesOk df master →
      (((repair_store_codes df master).2 ≠ none) ↔
        ∃ r ∈ correctedRows df.rows master.rows,
          (hasChar r.tokoBenar ',' = true ∨ hasChar r.tokoBenar '.' = true) ∧
            r.tokoBenar ∉ notScientificList master.rows)
      ∧ (∀ e, (repair_store_codes df master).2 = some e →
          e = CsnError.residual
              (residualRows (correctedRows df.rows master.rows) master.rows).length
              (((residualRows (correctedRows df.rows master.rows) master.rows).map
                  CsnRow.tokoBenar).take 5))
      ∧ ((repair_store_codes df master).2 = none →
          repair_store_codes df master
            = ({ df with rows := correctedRows df.rows master.rows }, none)) := by
  intro df master h
  rw [repair_store_codes_of_dtypesOk df master h]
  by_cases hres : 0 < (residualRows (correctedRows df.rows master.rows) master.rows).length
  · rw [if_pos hres]
    refine ⟨?_, ?_, ?_⟩
    · simp only [ne_eq, Option.some_ne_none, not_false_eq_true, true_iff]
      refine (residualRows_ne_nil_iff _ _).mp ?_
      intro hnil
      rw [hnil] at hres
      exact absurd hres (by simp)
    · intro e he
      exact (Option.some.injEq _ _ ▸ he).symm
    · intro he
      exact absurd he (by simp)
  · rw [if_neg hres]
    have hnil : residualRows (correctedRows df.rows master.rows) master.rows = [] :=
      List.length_eq_zero.mp (by omega)
    refine ⟨?_, ?_, ?_⟩
    · simp only [ne_eq, not_true_eq_false, false_iff]
      intro hex
      exact absurd hnil ((residualRows_ne_nil_iff _ _).mpr hex)
    · intro e he
      exact absurd he (by simp)
    · intro _
      rfl

/-- Input with an uncorrectable row ("1,1" under a key absent from the
lookup) used to exercise the residual validation error. -/
def c3FailDf : CsnTable :=
  ⟨Dtype.object, Dtype.object, Dtype.object, Dtype.object,
    [⟨"X", "Y", "zz", "1,1"⟩]⟩

/-- Empty master lookup for the residual-error exercise. -/
def c3FailMaster : CsnMaster :=
  ⟨Dtype.object, Dtype.object, Dtype.object, Dtype.object, []⟩

theorem c3_residual_validation_witness :
    (repair_store_codes c3FailDf c3FailMaster).2 ≠ none :=
  ((c3_residual_validation c3FailDf c3FailMaster
      ⟨rfl, rfl, rfl, rfl, rfl, rfl, rfl, rfl⟩).1).mpr
    ⟨⟨"X", "Y", "zz", "1,1"⟩, by decide, by decide⟩

/-- The first designated column failing the textual-dtype check, in the
order the source's two loops visit them (lines 163-165 for `df`, then
lines 179-181 for the master): `true` marks a `df` column, `false` a
master column. -/
def firstBadCol (df : CsnTable) (master : CsnMaster) :
    Option (Bool × String × Dtype) :=
  if df.dtype0 ≠ Dtype.object then some (true, CSN_DF_OP_CODE, df.dtype0)
  else if df.dtype1 ≠ Dtype.object then some (true, CSN_DF_KM_MASTER, df.dtype1)
  else if df.dtype2 ≠ Dtype.object then some (true, CSN_DF_TOKO_SAINTIFIK, df.dtype2)
  else if df.dtype3 ≠ Dtype.object then some (true, CSN_DF_TOKO_BENAR, df.dtype3)
  else if master.mdtype0 ≠ Dtype.object then some (false, CSN_MASTER_OP_CODE, master.mdtype0)
  else if master.mdtype1 ≠ Dtype.object then some (false, CSN_MASTER_KM_MASTER, master.mdtype1)
  else if master.mdtype2 ≠ Dtype.object then some (false, CSN_MASTER_TOKO_SAINTIFIK, master.mdtype2)
  else if master.mdtype3 ≠ Dtype.object then some (false, CSN_MASTER_TOKO_BENAR, master.mdtype3)
  else none

/-- The exception the dtype check raises for a given offending column:
`TypeError` over a `df` column, or the master-column variant. -/
def badColError (b : Bool) (c : String) (d : Dtype) : CsnError :=
  if b then CsnError.typeError c d else CsnError.masterTypeError c d

/-- C6: a designated column of the table or of the lookup holding a
non-textual dtype exists exactly when `firstBadCol` finds one, and in that
case the call fails with a type error naming that column and its actual
dtype, with the caller's table left untouched (the failure precedes any
mutation). -/
theorem c6_type_error_before_mutation :
    (∀ (df : CsnTable) (master : CsnMaster),
        firstBadCol df master = none ↔ dtypesOk df master)
    ∧ (∀ (df : CsnTable) (master : CsnMaster) (b : Bool) (c : String) (d : Dtype),
        firstBadCol df master = some (b, c, d) →
        d ≠ Dtype.object ∧
        (repair_store_codes df master).2 = some (badColError b c d) ∧
        (repair_store_codes df master).1 = df) := by
  constructor
  · intro df master
    unfold firstBadCol
    split_ifs with h0 h1 h2 h3 h4 h5 h6 h7
    all_goals first
      | (simp [dtypesOk, *]
         done)
      | (push_neg at h0 h1 h2 h3 h4 h5 h6 h7
         simp [dtypesOk, h0, h1, h2, h3, h4, h5, h6, h7])
  · intro df master b c d h
    unfold firstBadCol at h
    split_ifs at h with h0 h1 h2 h3 h4 h5 h6 h7
    all_goals
      simp only [Option.some.injEq, Prod.mk.injEq] at h
    all_goals
      obtain ⟨hb, hc, hd⟩ := h
      subst hb
      subst hc
      subst hd
      refine ⟨by assumption, ?_, ?_⟩ <;>
        simp [repair_store_codes, badColError, *]

/-- Table whose first designated column holds a numeric dtype. -/
def c6BadDf : CsnTable :=
  ⟨Dtype.int64, Dtype.object, Dtype.object, Dtype.object, []⟩

/-- All-textual master lookup for the dtype-check exercise. -/
def c6OkMaster : CsnMaster :=
  ⟨Dtype.object, Dtype.object, Dtype.object, Dtype.object, []⟩

theorem c6_type_error_before_mutation_witness :
    Dtype.int64 ≠ Dtype.object ∧
      (repair_store_codes c6BadDf c6OkMaster).2
        = some (badColError true CSN_DF_OP_CODE Dtype.int64) ∧
      (repair_store_codes c6BadDf c6OkMaster).1 = c6BadDf :=
  c6_type_error_before_mutation.2 c6BadDf c6OkMaster true CSN_DF_OP_CODE
    Dtype.int64 (by rfl)

/-- Input on which the correction pass rewrites row 1 and the residual
check then fails on row 2 ("1,1" has no lookup entry and is not
excluded). -/
def c10Df : CsnTable :=
  ⟨Dtype.object, Dtype.object, Dtype.object, Dtype.object,
    [⟨"A", "B", "8,00E+34", "8,00E+34"⟩, ⟨"X", "Y", "zz", "1,1"⟩]⟩

/-- The caller-visible state of `c10Df` at the moment the validation
error is raised: row 1's substitution has already been written back. -/
def c10Mut : CsnTable :=
  ⟨Dtype.object, Dtype.object, Dtype.object, Dtype.object,
    [⟨"A", "B", "8,00E+34", "8E34"⟩, ⟨"X", "Y", "zz", "1,1"⟩]⟩

/-- C10: the correction pass assigns the rewritten store-code column into
the caller's frame before the residual post-check runs, so when the
validation error is raised the substitutions already applied remain in
the caller's table: here the call raises the residual error for "1,1",
yet the caller's table already holds "8E34" in row 1 — the failure is
not atomic. -/
theorem c10_substitutions_persist_on_validation_error :
    repair_store_codes c10Df csnCommaExampleMaster
        = (c10Mut, some (CsnError.residual 1 ["1,1"])) ∧
      c10Mut ≠ c10Df ∧
      c10Mut.rows[0]? ≠ c10Df.rows[0]? :=
  ⟨by rfl, by decide, by decide⟩

/-! ### Notation Repair under the default column binding

Every call site of `correct_scientific_notation` uses the default column
parameters, and config.py binds `CSN_DF_TOKO_BENAR =
CSN_DF_TOKO_SAINTIFIK = "Toko"`: in the running program `df_column_2`
(the lookup-key column) and `df_column_3` (the rewritten column) are the
*same* "Toko" column.  The assignment at lines 198/208 therefore also
rewrites the column the composite key is read from, so on a second call
the keys are computed from the first call's output values.  This aliased
embedding models the function as actually called; rows carry one `toko`
field playing both roles. -/

/-- One row of the operational table under the default binding: OP code,
KM Master, and the single "Toko" column (lookup key and rewrite target). -/
structure TokoRow where
  opCode : String
  kmMaster : String
  toko : String
deriving DecidableEq, Repr

/-- The operational table under the default binding: dtypes of its three
distinct designated columns ("OP", "KM Master", "Toko") plus the rows. -/
structure TokoTable where
  dtype0 : Dtype
  dtype1 : Dtype
  dtype2 : Dtype
  rows : List TokoRow
deriving DecidableEq, Repr

/-- `rows_comma` (line 186) under the default binding. -/
def rowsCommaT (rows : List TokoRow) : Nat :=
  (rows.filter (fun r => hasChar r.toko ',')).length

/-- `rows_period` (line 187) under the default binding. -/
def rowsPeriodT (rows : List TokoRow) : Nat :=
  (rows.filter (fun r => hasChar r.toko '.')).length

/-- The `df.apply` of lines 198-201 / 208-211 under the default binding:
the composite key reads the same "Toko" column the rewrite assigns to. -/
def applyMappingT (keyOf : CsnMasterRow → String × String × String)
    (ms : List CsnMasterRow) (rows : List TokoRow) : List TokoRow :=
  rows.map (fun r =>
    { r with toko := (mapLookup keyOf ms (r.opCode, r.kmMaster, r.toko)).getD r.toko })

/-- Lines 193-211 under the default binding: the single correction pass. -/
def correctedRowsT (rows : List TokoRow) (ms : List CsnMasterRow) : List TokoRow :=
  if 0 < rowsCommaT rows then applyMappingT commaKeyOf ms rows
  else if 0 < rowsPeriodT rows then applyMappingT periodKeyOf ms rows
  else rows

/-- Lines 217-218 under the default binding. -/
def residualRowsT (rows : List TokoRow) (ms : List CsnMasterRow) : List TokoRow :=
  rows.filter (fun r =>
    (hasChar r.toko ',' || hasChar r.toko '.')
      && !((notScientificList ms).contains r.toko))

/-- The delimiter variant lines 193-211 select, under the default binding:
`some true` is the comma variant, `some false` the period variant, `none`
means neither branch runs. -/
def variantOfT (rows : List TokoRow) : Option Bool :=
  if 0 < rowsCommaT rows then some true
  else if 0 < rowsPeriodT rows then some false
  else none

/-- `correct_scientific_notation` as called by the program: default
column binding, so the dtype loop of lines 163-165 visits the "Toko"
column twice (as `df_column_2` and as `df_column_3`).  Components as in
`repair_store_codes`. -/
def repair_store_codes_toko (df : TokoTable) (master : CsnMaster) :
    TokoTable × Option CsnError :=
  if df.dtype0 ≠ Dtype.object then (df, some (CsnError.typeError CSN_DF_OP_CODE df.dtype0))
  else if df.dtype1 ≠ Dtype.object then (df, some (CsnError.typeError CSN_DF_KM_MASTER df.dtype1))
  else if df.dtype2 ≠ Dtype.object then (df, some (CsnError.typeError CSN_DF_TOKO_SAINTIFIK df.dtype2))
  else if df.dtype2 ≠ Dtype.object then (df, some (CsnError.typeError CSN_DF_TOKO_BENAR df.dtype2))
  else if master.mdtype0 ≠ Dtype.object then (df, some (CsnError.masterTypeError CSN_MASTER_OP_CODE master.mdtype0))
  else if master.mdtype1 ≠ Dtype.object then (df, some (CsnError.masterTypeError CSN_MASTER_KM_MASTER master.mdtype1))
  else if master.mdtype2 ≠ Dtype.object then (df, some (CsnError.masterTypeError CSN_MASTER_TOKO_SAINTIFIK master.mdtype2))
  else if master.mdtype3 ≠ Dtype.object then (df, some (CsnError.masterTypeError CSN_MASTER_TOKO_BENAR master.mdtype3))
  else
    let rows2 := correctedRowsT df.rows master.rows
    let df2 : TokoTable := { df with rows := rows2 }
    let res := residualRowsT rows2 master.rows
    if 0 < res.length then
      (df2, some (CsnError.residual res.length ((res.map TokoRow.toko).take 5)))
    else (df2, none)

/-- The designated columns hold the textual dtype, under the default
binding. -/
def dtypesOkT (df : TokoTable) (master : CsnMaster) : Prop :=
  df.dtype0 = Dtype.object ∧ df.dtype1 = Dtype.object ∧ df.dtype2 = Dtype.object ∧
  master.mdtype0 = Dtype.object ∧ master.mdtype1 = Dtype.object ∧
  master.mdtype2 = Dtype.object ∧ master.mdtype3 = Dtype.object

/-- Under the textual-dtype precondition, the aliased call reduces to the
correction pass followed by the residual check. -/
theorem repair_store_codes_toko_of_dtypesOk (df : TokoTable) (master : CsnMaster)
    (h : dtypesOkT df master) :
    repair_store_codes_toko df master =
      ({ df with rows := correctedRowsT df.rows master.rows },
        if 0 < (residualRowsT (correctedRowsT df.rows master.rows) master.rows).length
        then some (CsnError.residual
            (residualRowsT (correctedRowsT df.rows master.rows) master.rows).length
            (((residualRowsT (correctedRowsT df.rows master.rows) master.rows).map
                TokoRow.toko).take 5))
        else none) := by
  obtain ⟨h0, h1, h2, h4, h5, h6, h7⟩ := h
  rw [repair_store_codes_toko]
  simp only [h0, h1, h2, h4, h5, h6, h7, ne_eq, not_true_eq_false, if_false]
  split <;> rfl

theorem correctedRowsT_id (rows : List TokoRow) (ms : List CsnMasterRow)
    (h1 : rowsCommaT rows = 0) (h2 : rowsPeriodT rows = 0) :
    correctedRowsT rows ms = rows := by
  unfold correctedRowsT
  rw [if_neg (by omega), if_neg (by omega)]

theorem variantOfT_eq_none_iff (rows : List TokoRow) :
    variantOfT rows = none ↔ rowsCommaT rows = 0 ∧ rowsPeriodT rows = 0 := by
  unfold variantOfT
  split_ifs <;> simp <;> omega

/-- Non-idempotence input under the default binding: one row with
Toko = "8.0" under key (A, B). -/
def c9AliasDf : TokoTable :=
  ⟨Dtype.object, Dtype.object, Dtype.object, [⟨"A", "B", "8.0"⟩]⟩

/-- Lookup for the non-idempotence example: ("A","B","8.0") → "P.X"
(an excluded period-form canonical), ("A","B","P,X") → "ZZ" (whose
period-variant key is ("A","B","P.X")), ("Z","Z","q") → "Q.Q". -/
def c9AliasMaster : CsnMaster :=
  ⟨Dtype.object, Dtype.object, Dtype.object, Dtype.object,
    [⟨"A", "B", "8.0", "P.X"⟩, ⟨"A", "B", "P,X", "ZZ"⟩, ⟨"Z", "Z", "q", "Q.Q"⟩]⟩

/-- Result of the first call on `c9AliasDf`: "8.0" rewritten to the
excluded value "P.X" — which, the key column being the rewritten column,
is also the key the second call will look up. -/
def c9AliasT1 : TokoTable :=
  ⟨Dtype.object, Dtype.object, Dtype.object, [⟨"A", "B", "P.X"⟩]⟩

/-- Result of the second call: the rewritten key ("A","B","P.X") now hits
the second lookup entry and "P.X" becomes "ZZ". -/
def c9AliasT2 : TokoTable :=
  ⟨Dtype.object, Dtype.object, Dtype.object, [⟨"A", "B", "ZZ"⟩]⟩

/-- C9 counterexample, under the program's default binding (the lookup-key
column and the rewritten column are the same "Toko" column): both calls
succeed and both select the period variant — no variant flip — yet the
second call performs a substitution ("P.X" → "ZZ") because the first
call's rewrite changed the very column the composite key is read from.
`repair_store_codes` applied twice is not idempotent. -/
theorem c9_aliased_not_idempotent_counterexample :
    repair_store_codes_toko c9AliasDf c9AliasMaster = (c9AliasT1, none) ∧
      repair_store_codes_toko c9AliasT1 c9AliasMaster = (c9AliasT2, none) ∧
      variantOfT c9AliasT1.rows = variantOfT c9AliasDf.rows ∧
      c9AliasT1 ≠ c9AliasT2 :=
  ⟨by rfl, by rfl, by rfl, by decide⟩

/-- C9 amended: under the default binding the second call performs zero
substitutions and returns the same table in exactly the benign cases that
remain — when the corrected table contains no comma- and no
period-containing value (neither branch runs on the second call), or when
the first call already substituted nothing.  In general the function is
not idempotent: the second call substitutes again when the delimiter
variant flips, or when a first-call rewrite leaves an excluded
period-form value that is itself the opposite-delimiter key of another
lookup entry. -/
theorem c9_idempotent_only_in_benign_cases :
    ∀ (df : TokoTable) (master : CsnMaster), dtypesOkT df master →
      (repair_store_codes_toko df master).2 = none →
      (variantOfT (repair_store_codes_toko df master).1.rows = none ∨
        (repair_store_codes_toko df master).1.rows = df.rows) →
      repair_store_codes_toko ((repair_store_codes_toko df master).1) master
        = ((repair_store_codes_toko df master).1, none) := by
  intro df master h hnone hcase
  have heq := repair_store_codes_toko_of_dtypesOk df master h
  have h1 : (repair_store_codes_toko df master).1
      = { df with rows := correctedRowsT df.rows master.rows } := by rw [heq]
  have h1r : (repair_store_codes_toko df master).1.rows
      = correctedRowsT df.rows master.rows := by rw [h1]
  have h2 : (repair_store_codes_toko df master).2
      = (if 0 < (residualRowsT (correctedRowsT df.rows master.rows) master.rows).length
        then some (CsnError.residual
            (residualRowsT (correctedRowsT df.rows master.rows) master.rows).length
            (((residualRowsT (correctedRowsT df.rows master.rows) master.rows).map
                TokoRow.toko).take 5))
        else none) := by rw [heq]
  rw [h2] at hnone
  by_cases hres : 0 < (residualRowsT (correctedRowsT df.rows master.rows) master.rows).length
  · rw [if_pos hres] at hnone
    exact absurd hnone (by simp)
  · have hresnil : residualRowsT (correctedRowsT df.rows master.rows) master.rows = [] :=
      List.length_eq_zero.mp (by omega)
    rcases hcase with hv | hz
    · rw [h1r] at hv
      obtain ⟨hc, hp⟩ := (variantOfT_eq_none_iff _).mp hv
      have hdt2 : dtypesOkT { df with rows := correctedRowsT df.rows master.rows } master := h
      rw [h1, repair_store_codes_toko_of_dtypesOk
        { df with rows := correctedRowsT df.rows master.rows } master hdt2]
      have hproj : ({ df with rows := correctedRowsT df.rows master.rows } : TokoTable).rows
          = correctedRowsT df.rows master.rows := rfl
      rw [hproj, correctedRowsT_id _ _ hc hp, hresnil]
      rfl
    · rw [h1r] at hz
      have h1' : (repair_store_codes_toko df master).1 = df := by rw [h1, hz]
      rw [hz] at hresnil
      rw [h1', heq, hz, hresnil]
      rfl

/-- Aliased input whose single row is fully corrected by the first call:
Toko = "8,00E+34" becomes the delimiter-free "8E34". -/
def c9AliasFixedDf : TokoTable :=
  ⟨Dtype.object, Dtype.object, Dtype.object, [⟨"A", "B", "8,00E+34"⟩]⟩

theorem c9_idempotent_only_in_benign_cases_witness :
    repair_store_codes_toko
        ((repair_store_codes_toko c9AliasFixedDf csnCommaExampleMaster).1)
        csnCommaExampleMaster
      = ((repair_store_codes_toko c9AliasFixedDf csnCommaExampleMaster).1, none) :=
  c9_idempotent_only_in_benign_cases c9AliasFixedDf csnCommaExampleMaster
    ⟨rfl, rfl, rfl, rfl, rfl, rfl, rfl⟩ (by rfl) (Or.inl (by rfl))
